import Mathlib

/-!
Shallow embedding of the task-tracking REST handlers of the
User-Cost-Estimation repository:

* `src/app/api/tasks/route.ts` — `GET` (list with filters), `POST` (create);
* `src/app/api/tasks/[id]/route.ts` — `PUT` (update), `DELETE` (delete);
* the hour totals of the admin `ProjectDetailTable` component.

JavaScript strings are Lean `String`s, the `decimal` hour columns and the
JSON numbers of request bodies are exact rationals (`Rat`), timestamps are
`Nat`, the relational store is a list of rows, and absent JSON fields are
`Option.none`.  JavaScript truthiness on the modelled values is explicit:
a string is falsy exactly when it is empty, a number exactly when it is
zero.  `jsTrim` embeds `String.prototype.trim` (drop leading and trailing
whitespace).
-/

namespace TaskApi

/-- Embedding of JavaScript `String.prototype.trim` on the character list. -/
def trimChars (l : List Char) : List Char :=
  ((l.dropWhile Char.isWhitespace).reverse.dropWhile Char.isWhitespace).reverse

/-- Embedding of JavaScript `s.trim()`. -/
def jsTrim (s : String) : String := String.mk (trimChars s.data)

/-- The task status enum of the `Tasks` schema. -/
inductive TaskStatus where
  | pending
  | approved
  | rejected
deriving DecidableEq

/-- The string stored in the status column, as compared by the status filter. -/
def TaskStatus.toStr : TaskStatus → String
  | .pending => "pending"
  | .approved => "approved"
  | .rejected => "rejected"

/-- A row of the `Tasks` table. -/
structure Task where
  id : String
  projectId : String
  employeeId : String
  taskName : String
  description : Option String
  expectedHours : Rat
  actualHours : Rat
  status : TaskStatus
  approvedBy : Option String
  approvedAt : Option Nat
  rejectionReason : Option String
  createdAt : Nat
  updatedAt : Nat
deriving DecidableEq

/-- A row of the `Projects` table (only `id` and the display name matter here). -/
structure Project where
  id : String
  projectName : String
  description : Option String
  createdBy : String
  isActive : Bool
  createdAt : Nat
  updatedAt : Nat
deriving DecidableEq

/-- A row of the `UserTable` (display fields joined onto task rows). -/
structure User where
  id : String
  name : String
  email : String
deriving DecidableEq

/-- The authenticated session (`session.user`): identity and role string;
the administrator role is the string `platform_admin`. -/
structure Session where
  userId : String
  role : String
deriving DecidableEq

/-- The possible JSON responses of the task handlers, tagged with the data
they carry. -/
inductive ApiResponse where
  | okTask (task : Task)
  | okList (rows : List Task)
  | created (task : Task)
  | deleted
  | unauthorized
  | validationError (msg : String)
  | notFound (msg : String)
  | forbidden (msg : String)
deriving DecidableEq

/-- The HTTP status code each response is returned with. -/
def ApiResponse.httpStatus : ApiResponse → Nat
  | .okTask _ => 200
  | .okList _ => 200
  | .created _ => 201
  | .deleted => 200
  | .unauthorized => 401
  | .validationError _ => 400
  | .notFound _ => 404
  | .forbidden _ => 403

/-- Whether a response is a 403 Forbidden response. -/
def ApiResponse.isForbidden : ApiResponse → Bool
  | .forbidden _ => true
  | _ => false

/-- The JSON body of a `PUT /api/tasks/[id]` request.  The handler
destructures only `taskName`, `description`, `expectedHours` and
`actualHours`; the `status` and `createdAt` keys that the admin dashboard
also sends are carried here so that theorems can quantify over them, but the
handler never reads them. -/
structure UpdateBody where
  taskName : Option String
  description : Option String
  expectedHours : Option Rat
  actualHours : Option Rat
  status : Option String
  createdAt : Option String
deriving DecidableEq

/-- The JSON body of a `POST /api/tasks` request; `employeeId` and `status`
keys a caller might send are carried but never read by the handler. -/
structure CreateBody where
  projectId : Option String
  taskName : Option String
  description : Option String
  expectedHours : Option Rat
  actualHours : Option Rat
  employeeId : Option String
  status : Option String
deriving DecidableEq

/-- The query-string filters of `GET /api/tasks`; `searchParams.get` yields
`none` when the key is absent. -/
structure TaskFilters where
  projectId : Option String
  status : Option String
  employeeId : Option String
deriving DecidableEq

/-- JavaScript truthiness test `!x` for an optional string: absent or empty. -/
def isFalsyStr : Option String → Bool
  | none => true
  | some s => s = ""

/-- JavaScript truthiness test `!x` for an optional number: absent or zero. -/
def isFalsyNum : Option Rat → Bool
  | none => true
  | some x => x = 0

/-- `db.select().from(Tasks).where(eq(Tasks.id, id)).limit(1)` — the first
task row with the given id. -/
def findTask (store : List Task) (id : String) : Option Task :=
  store.find? (fun t => t.id == id)

/-- The `PUT` check on `actualHours`: absent, or a number that is not
negative (`actualHours !== undefined && (isNaN(...) || parseFloat(...) < 0)`
rejects). -/
def actualHoursOk (body : UpdateBody) : Bool :=
  match body.actualHours with
  | none => true
  | some h => decide (0 ≤ h)

/-- The `db.update(Tasks).set({...})` column values of the `PUT` handler
applied to one row: `taskName.trim()`, `description?.trim() || null`,
`expectedHours?.toString()` and `actualHours?.toString()` (an `undefined`
value leaves the column untouched), and a fresh `updatedAt`. -/
def applyUpdate (t : Task) (body : UpdateBody) (now : Nat) : Task :=
  { t with
    taskName := jsTrim (body.taskName.getD "")
    description :=
      match body.description with
      | some d => if jsTrim d = "" then none else some (jsTrim d)
      | none => none
    expectedHours := body.expectedHours.getD t.expectedHours
    actualHours := body.actualHours.getD t.actualHours
    updatedAt := now }

/-- The `PUT /api/tasks/[id]` handler: session check, field validation
(`!taskName?.trim()`, then the `actualHours` check), task lookup, ownership
check, status check, then the update.  Returns the response together with
the store after the request. -/
def PUT (session : Option Session) (store : List Task) (taskId : String)
    (body : UpdateBody) (now : Nat) : ApiResponse × List Task :=
  match session with
  | none => (.unauthorized, store)
  | some s =>
    if jsTrim (body.taskName.getD "") = "" then
      (.validationError "Task name is required", store)
    else if actualHoursOk body = false then
      (.validationError "Actual hours must be a positive number", store)
    else
      match findTask store taskId with
      | none => (.notFound "Task not found", store)
      | some t =>
        if t.employeeId ≠ s.userId ∧ s.role ≠ "platform_admin" then
          (.forbidden "Forbidden", store)
        else if t.status ≠ .pending ∧ s.role ≠ "platform_admin" then
          (.forbidden "Cannot edit approved or rejected tasks", store)
        else
          (.okTask (applyUpdate t body now),
           store.map (fun u => if u.id == taskId then applyUpdate u body now else u))

/-- The `DELETE /api/tasks/[id]` handler: session check, task lookup,
ownership check, then `db.delete(Tasks).where(eq(Tasks.id, id))`. -/
def DELETE (session : Option Session) (store : List Task) (taskId : String) :
    ApiResponse × List Task :=
  match session with
  | none => (.unauthorized, store)
  | some s =>
    match findTask store taskId with
    | none => (.notFound "Task not found", store)
    | some t =>
      if t.employeeId ≠ s.userId ∧ s.role ≠ "platform_admin" then
        (.forbidden "Forbidden", store)
      else
        (.deleted, store.filter (fun u => u.id != taskId))

/-- The `POST /api/tasks` handler: session check, the truthiness check
`!projectId || !taskName || !expectedHours || !actualHours`, the project
lookup, then the insert with `employeeId: session.user.id` and
`status: pending`.  `newId` and `now` stand for the generated row id and
the database timestamp defaults. -/
def POST (session : Option Session) (projects : List Project)
    (store : List Task) (body : CreateBody) (newId : String) (now : Nat) :
    ApiResponse × List Task :=
  match session with
  | none => (.unauthorized, store)
  | some s =>
    if isFalsyStr body.projectId || isFalsyStr body.taskName
        || isFalsyNum body.expectedHours || isFalsyNum body.actualHours then
      (.validationError "All required fields must be provided", store)
    else
      match projects.find? (fun p => p.id == body.projectId.getD "") with
      | none => (.notFound "Project not found", store)
      | some _ =>
        let t : Task :=
          { id := newId
            projectId := body.projectId.getD ""
            employeeId := s.userId
            taskName := body.taskName.getD ""
            description := body.description
            expectedHours := body.expectedHours.getD 0
            actualHours := body.actualHours.getD 0
            status := .pending
            approvedBy := none
            approvedAt := none
            rejectionReason := none
            createdAt := now
            updatedAt := now }
        (.created t, store ++ [t])

/-- Whether a task row satisfies the conjunction of the supplied filters;
a filter whose query value is the empty string is falsy in JavaScript and
is never pushed into the `where` clause. -/
def matchesFilters (f : TaskFilters) (t : Task) : Bool :=
  (match f.projectId with
   | none => true
   | some p => p = "" || t.projectId == p) &&
  (match f.status with
   | none => true
   | some st => st = "" || t.status.toStr == st) &&
  (match f.employeeId with
   | none => true
   | some e => e = "" || t.employeeId == e)

/-- Insert a task into a list kept in descending `createdAt` order. -/
def insertByCreatedDesc (t : Task) : List Task → List Task
  | [] => [t]
  | u :: us =>
    if u.createdAt ≤ t.createdAt then t :: u :: us
    else u :: insertByCreatedDesc t us

/-- Sort a task list by `createdAt` descending — the
`orderBy(desc(Tasks.createdAt))` of the list query. -/
def sortByCreatedDesc : List Task → List Task
  | [] => []
  | t :: ts => insertByCreatedDesc t (sortByCreatedDesc ts)

/-- The joined row shape the `GET` handlers select: task columns plus
project and employee display fields, which the two `leftJoin`s degrade to
`null` when the referenced row is missing. -/
structure TaskRow where
  taskId : String
  taskName : String
  description : Option String
  expectedHours : Rat
  actualHours : Rat
  status : TaskStatus
  approvedAt : Option Nat
  rejectionReason : Option String
  createdAt : Nat
  updatedAt : Nat
  projectId : Option String
  projectName : Option String
  employeeId : Option String
  employeeName : Option String
  employeeEmail : Option String
deriving DecidableEq

/-- The two `leftJoin`s of the list query applied to one task row. -/
def joinRow (users : List User) (projects : List Project) (t : Task) : TaskRow :=
  let u := users.find? (fun u => u.id == t.employeeId)
  let p := projects.find? (fun p => p.id == t.projectId)
  { taskId := t.id
    taskName := t.taskName
    description := t.description
    expectedHours := t.expectedHours
    actualHours := t.actualHours
    status := t.status
    approvedAt := t.approvedAt
    rejectionReason := t.rejectionReason
    createdAt := t.createdAt
    updatedAt := t.updatedAt
    projectId := p.map (fun q => q.id)
    projectName := p.map (fun q => q.projectName)
    employeeId := u.map (fun v => v.id)
    employeeName := u.map (fun v => v.name)
    employeeEmail := u.map (fun v => v.email) }

/-- The result of `GET /api/tasks`. -/
inductive ListResult where
  | unauthorized
  | ok (rows : List TaskRow)
deriving DecidableEq

/-- The `GET /api/tasks` handler: session check, then the filtered, joined
query ordered by creation time descending. -/
def GETtasks (session : Option Session) (users : List User)
    (projects : List Project) (store : List Task) (f : TaskFilters) :
    ListResult :=
  match session with
  | none => .unauthorized
  | some _ =>
    .ok ((sortByCreatedDesc (store.filter (matchesFilters f))).map
      (joinRow users projects))

/-- `tasks.reduce((sum, t) => sum + parseFloat(t.expectedHours), 0)` of the
admin `ProjectDetailTable`, in exact rational arithmetic. -/
def totalExpectedHours (tasks : List Task) : Rat :=
  tasks.foldl (fun sum t => sum + t.expectedHours) 0

/-- `tasks.reduce((sum, t) => sum + parseFloat(t.actualHours), 0)` of the
admin `ProjectDetailTable`, in exact rational arithmetic. -/
def totalActualHours (tasks : List Task) : Rat :=
  tasks.foldl (fun sum t => sum + t.actualHours) 0

/-! Concrete fixtures used by witnesses and counterexamples. -/

/-- An employee session. -/
def exEmployee : Session := { userId := "e1", role := "employee" }

/-- An administrator session. -/
def exAdmin : Session := { userId := "a1", role := "platform_admin" }

/-- A second employee session, owner of no fixture task. -/
def exOther : Session := { userId := "e2", role := "employee" }

/-- An approved task owned by employee `e1`. -/
def exTaskApproved : Task :=
  { id := "t1", projectId := "p1", employeeId := "e1", taskName := "old name",
    description := none, expectedHours := 2, actualHours := 3,
    status := .approved, approvedBy := some "a1", approvedAt := some 9,
    rejectionReason := none, createdAt := 1, updatedAt := 1 }

/-- A pending task owned by employee `e1`, created later than `exTaskApproved`. -/
def exTaskPending : Task :=
  { id := "t2", projectId := "p1", employeeId := "e1", taskName := "pending task",
    description := none, expectedHours := 4, actualHours := 1,
    status := .pending, approvedBy := none, approvedAt := none,
    rejectionReason := none, createdAt := 3, updatedAt := 3 }

/-- The fixture project referenced by the fixture tasks. -/
def exProject : Project :=
  { id := "p1", projectName := "Website Redesign", description := none,
    createdBy := "a1", isActive := true, createdAt := 0, updatedAt := 0 }

/-- The fixture employee row joined onto task rows. -/
def exUser : User := { id := "e1", name := "Emp One", email := "e1@x.com" }

/-- A `PUT` body whose task name trims to the empty string. -/
def exEmptyNameBody : UpdateBody :=
  { taskName := some "   ", description := none, expectedHours := none,
    actualHours := none, status := some "approved", createdAt := none }

/-- A `PUT` body that passes the handler validation; it also carries the
`status` and `createdAt` keys the admin dashboard sends. -/
def exGoodBody : UpdateBody :=
  { taskName := some " new name ", description := some " d ",
    expectedHours := some 7, actualHours := none,
    status := some "rejected", createdAt := some "2024-01-01" }

/-- A `PUT` body carrying a negative `expectedHours` and no `actualHours`. -/
def exNegExpBody : UpdateBody :=
  { taskName := some "a", description := none, expectedHours := some (-5),
    actualHours := none, status := none, createdAt := none }

/-- A `POST` body whose `actualHours` is the number `0`. -/
def exCreateZero : CreateBody :=
  { projectId := some "p1", taskName := some "t", description := none,
    expectedHours := some 2, actualHours := some 0,
    employeeId := none, status := none }

/-- A `POST` body whose `expectedHours` is negative (and nothing falsy). -/
def exCreateNeg : CreateBody :=
  { projectId := some "p1", taskName := some "t", description := none,
    expectedHours := some (-1), actualHours := some 2,
    employeeId := some "e9", status := some "approved" }

/-- A `PUT` body with a negative `actualHours`. -/
def exNegActBody : UpdateBody :=
  { taskName := some "a", description := none, expectedHours := none,
    actualHours := some (-1), status := none, createdAt := none }

/-- The row `POST` persists for `exCreateNeg` under the fixture employee
session, generated id `n1` and timestamp `9`. -/
def exCreatedNeg : Task :=
  { id := "n1", projectId := "p1", employeeId := "e1", taskName := "t",
    description := none, expectedHours := -1, actualHours := 2,
    status := .pending, approvedBy := none, approvedAt := none,
    rejectionReason := none, createdAt := 9, updatedAt := 9 }

/-- The no-filter query of `GET /api/tasks`. -/
def exNoFilters : TaskFilters := { projectId := none, status := none, employeeId := none }

/-- The joined rows the list query returns for the two fixture tasks with no
filters: the later-created pending task first. -/
def exRows : List TaskRow :=
  List.map (joinRow [exUser] [exProject]) [exTaskPending, exTaskApproved]

/-! Helper lemmas. -/

/-- Folding `+` over a projection computes the exact sum of the projected
values, whatever the accumulator. -/
theorem foldl_add_eq_sum (f : Task → Rat) (l : List Task) (a : Rat) :
    l.foldl (fun sum t => sum + f t) a = a + (l.map f).sum := by
  induction l generalizing a with
  | nil => simp
  | cons t ts ih => simp [List.foldl, ih, add_assoc]

/-- Ordered insertion only rearranges: the result is a permutation of the
element consed on the list. -/
theorem perm_insertByCreatedDesc (t : Task) (l : List Task) :
    List.Perm (insertByCreatedDesc t l) (t :: l) := by
  induction l with
  | nil => simp [insertByCreatedDesc]
  | cons u us ih =>
    simp only [insertByCreatedDesc]
    by_cases hc : u.createdAt ≤ t.createdAt
    · simp [hc]
    · simp only [hc, if_false]
      exact (ih.cons u).trans (List.Perm.swap t u us)

/-- The sort of the list query is a permutation of its input. -/
theorem perm_sortByCreatedDesc (l : List Task) : List.Perm (sortByCreatedDesc l) l := by
  induction l with
  | nil => simp [sortByCreatedDesc]
  | cons t ts ih =>
    exact (perm_insertByCreatedDesc t (sortByCreatedDesc ts)).trans (ih.cons t)

/-- Ordered insertion preserves the descending-`createdAt` invariant. -/
theorem pairwise_insertByCreatedDesc (t : Task) (l : List Task)
    (h : l.Pairwise (fun a b => b.createdAt ≤ a.createdAt)) :
    (insertByCreatedDesc t l).Pairwise (fun a b => b.createdAt ≤ a.createdAt) := by
  induction l with
  | nil => simp [insertByCreatedDesc]
  | cons u us ih =>
    rcases List.pairwise_cons.mp h with ⟨hu, hus⟩
    simp only [insertByCreatedDesc]
    by_cases hc : u.createdAt ≤ t.createdAt
    · simp only [hc, if_true]
      refine List.pairwise_cons.mpr ⟨?_, h⟩
      intro b hb
      rcases List.mem_cons.mp hb with hb | hb
      · exact hb ▸ hc
      · exact le_trans (hu b hb) hc
    · simp only [hc, if_false]
      refine List.pairwise_cons.mpr ⟨?_, ih hus⟩
      intro b hb
      rcases List.mem_cons.mp ((perm_insertByCreatedDesc t us).mem_iff.mp hb) with hb2 | hb2
      · exact hb2 ▸ le_of_not_le hc
      · exact hu b hb2

/-- The sort of the list query is descending in `createdAt`. -/
theorem pairwise_sortByCreatedDesc (l : List Task) :
    (sortByCreatedDesc l).Pairwise (fun a b => b.createdAt ≤ a.createdAt) := by
  induction l with
  | nil => simp [sortByCreatedDesc]
  | cons t ts ih => exact pairwise_insertByCreatedDesc t (sortByCreatedDesc ts) ih

/-- On any successful `PUT`, the returned task is the looked-up row passed
through `applyUpdate`, and the store change is the row-local update. -/
theorem put_ok_characterization
    (store : List Task) (tid : String) (t t2 : Task) (body : UpdateBody)
    (s : Session) (now : Nat)
    (hfind : findTask store tid = some t)
    (hok : (PUT (some s) store tid body now).1 = ApiResponse.okTask t2) :
    t2 = applyUpdate t body now ∧
    (PUT (some s) store tid body now).2 =
      store.map (fun u => if u.id == tid then applyUpdate u body now else u) := by
  by_cases h1 : jsTrim (body.taskName.getD "") = ""
  · simp [PUT, h1] at hok
  · by_cases h2 : actualHoursOk body = false
    · simp [PUT, h1, h2] at hok
    · by_cases h3 : t.employeeId ≠ s.userId ∧ s.role ≠ "platform_admin"
      · simp [PUT, h1, h2, hfind, h3] at hok
      · by_cases h4 : t.status ≠ TaskStatus.pending ∧ s.role ≠ "platform_admin"
        · by_cases hown : t.employeeId = s.userId
          · simp [PUT, h1, h2, hfind, h3, h4, hown] at hok
          · exact absurd ⟨hown, h4.2⟩ h3
        · refine ⟨?_, ?_⟩
          · have h5 := hok
            simp [PUT, h1, h2, hfind, h3, h4] at h5
            exact h5.symm
          · simp [PUT, h1, h2, hfind, h3, h4]

/-- Claim C1 (amended): for an existing task whose status is not pending and
a request body that passes the PUT input validation, Update by an
authenticated non-administrator fails with ForbiddenError (403), and Update
by an administrator succeeds with the updated task. -/
theorem C1_update_nonpending_admin_only
    (store : List Task) (tid : String) (t : Task) (body : UpdateBody)
    (sE sA : Session) (now : Nat)
    (hfind : findTask store tid = some t)
    (hstatus : t.status ≠ TaskStatus.pending)
    (hname : jsTrim (body.taskName.getD "") ≠ "")
    (hhours : actualHoursOk body = true)
    (hemp : sE.role ≠ "platform_admin")
    (hadm : sA.role = "platform_admin") :
    (PUT (some sE) store tid body now).1.isForbidden = true ∧
    (PUT (some sA) store tid body now).1 = ApiResponse.okTask (applyUpdate t body now) := by
  constructor
  · by_cases hown : t.employeeId = sE.userId
    · simp [PUT, hfind, hname, hhours, hown, hstatus, hemp, ApiResponse.isForbidden]
    · simp [PUT, hfind, hname, hhours, hown, hemp, ApiResponse.isForbidden]
  · simp [PUT, hfind, hname, hhours, hadm]

/-- Claim C1 witness: the amended claim at the approved fixture task, the
validating body, the employee session and the administrator session. -/
theorem C1_update_nonpending_admin_only_witness :
    (findTask [exTaskApproved] "t1" = some exTaskApproved ∧
     exTaskApproved.status ≠ TaskStatus.pending ∧
     jsTrim (exGoodBody.taskName.getD "") ≠ "" ∧
     actualHoursOk exGoodBody = true ∧
     exEmployee.role ≠ "platform_admin" ∧
     exAdmin.role = "platform_admin") ∧
    ((PUT (some exEmployee) [exTaskApproved] "t1" exGoodBody 5).1.isForbidden = true ∧
     (PUT (some exAdmin) [exTaskApproved] "t1" exGoodBody 5).1 =
       ApiResponse.okTask (applyUpdate exTaskApproved exGoodBody 5)) :=
  ⟨by decide,
   C1_update_nonpending_admin_only [exTaskApproved] "t1" exTaskApproved exGoodBody
     exEmployee exAdmin 5 (by decide) (by decide) (by decide) (by decide)
     (by decide) (by decide)⟩

/-- Claim C1 counterexample: with a body whose task name trims to empty, a
non-administrator Update of the existing approved task does not fail with
ForbiddenError but with 400, and the administrator Update on the same task
does not succeed either. -/
theorem C1_counterexample :
    exTaskApproved.status ≠ TaskStatus.pending ∧
    exEmployee.role ≠ "platform_admin" ∧
    findTask [exTaskApproved] "t1" = some exTaskApproved ∧
    (PUT (some exEmployee) [exTaskApproved] "t1" exEmptyNameBody 5).1.isForbidden = false ∧
    (PUT (some exEmployee) [exTaskApproved] "t1" exEmptyNameBody 5).1.httpStatus = 400 ∧
    (PUT (some exAdmin) [exTaskApproved] "t1" exEmptyNameBody 5).1 =
      ApiResponse.validationError "Task name is required" := by decide

/-- Claim C2 (amended): for an existing task and a request body that passes
the PUT input validation, Update by an authenticated caller who is neither
an administrator nor the owning employee fails with ForbiddenError (403) and
leaves the store unchanged, whatever the task status. -/
theorem C2_update_foreign_forbidden
    (store : List Task) (tid : String) (t : Task) (body : UpdateBody)
    (s : Session) (now : Nat)
    (hfind : findTask store tid = some t)
    (hname : jsTrim (body.taskName.getD "") ≠ "")
    (hhours : actualHoursOk body = true)
    (hown : t.employeeId ≠ s.userId)
    (hrole : s.role ≠ "platform_admin") :
    PUT (some s) store tid body now = (ApiResponse.forbidden "Forbidden", store) := by
  simp [PUT, hfind, hname, hhours, hown, hrole]

/-- Claim C2 witness: the amended claim for the second employee against the
first employee's approved task. -/
theorem C2_update_foreign_forbidden_witness :
    (findTask [exTaskApproved] "t1" = some exTaskApproved ∧
     jsTrim (exGoodBody.taskName.getD "") ≠ "" ∧
     actualHoursOk exGoodBody = true ∧
     exTaskApproved.employeeId ≠ exOther.userId ∧
     exOther.role ≠ "platform_admin") ∧
    PUT (some exOther) [exTaskApproved] "t1" exGoodBody 5 =
      (ApiResponse.forbidden "Forbidden", [exTaskApproved]) :=
  ⟨by decide,
   C2_update_foreign_forbidden [exTaskApproved] "t1" exTaskApproved exGoodBody
     exOther 5 (by decide) (by decide) (by decide) (by decide) (by decide)⟩

/-- Claim C2 counterexample: the same foreign caller, but a body whose task
name trims to empty — the request fails with 400, not with ForbiddenError,
so the claim does not hold for every request body. -/
theorem C2_counterexample :
    findTask [exTaskApproved] "t1" = some exTaskApproved ∧
    exTaskApproved.employeeId ≠ exOther.userId ∧
    exOther.role ≠ "platform_admin" ∧
    (PUT (some exOther) [exTaskApproved] "t1" exEmptyNameBody 5).1.isForbidden = false ∧
    (PUT (some exOther) [exTaskApproved] "t1" exEmptyNameBody 5).1.httpStatus = 400 := by
  decide

/-- Claim C3: Delete applies only the ownership/role check and no status
check — for any existing task, the owning employee or an administrator gets
the deletion (whatever the status, which no hypothesis constrains), and any
other authenticated caller gets ForbiddenError with the store unchanged. -/
theorem C3_delete_ownership_only
    (store : List Task) (tid : String) (t : Task) (s : Session)
    (hfind : findTask store tid = some t) :
    (s.userId = t.employeeId ∨ s.role = "platform_admin" →
       DELETE (some s) store tid =
         (ApiResponse.deleted, store.filter (fun u => u.id != tid))) ∧
    (t.employeeId ≠ s.userId → s.role ≠ "platform_admin" →
       DELETE (some s) store tid = (ApiResponse.forbidden "Forbidden", store)) := by
  constructor
  · intro hok
    rcases hok with h | h
    · simp [DELETE, hfind, h]
    · simp [DELETE, hfind, h]
  · intro h1 h2
    simp [DELETE, hfind, h1, h2]

/-- Claim C3 witness: the owning employee deletes their approved (non-pending)
task, and the consequent for a foreign caller is also instantiated. -/
theorem C3_delete_ownership_only_witness :
    (findTask [exTaskApproved] "t1" = some exTaskApproved ∧
     exTaskApproved.status = TaskStatus.approved) ∧
    ((exEmployee.userId = exTaskApproved.employeeId ∨ exEmployee.role = "platform_admin" →
        DELETE (some exEmployee) [exTaskApproved] "t1" =
          (ApiResponse.deleted, List.filter (fun u => u.id != "t1") [exTaskApproved])) ∧
     (exTaskApproved.employeeId ≠ exEmployee.userId → exEmployee.role ≠ "platform_admin" →
        DELETE (some exEmployee) [exTaskApproved] "t1" =
          (ApiResponse.forbidden "Forbidden", [exTaskApproved]))) :=
  ⟨by decide,
   C3_delete_ownership_only [exTaskApproved] "t1" exTaskApproved exEmployee (by decide)⟩

/-- Claim C4: a successful Update persists only `taskName`, `description`,
`expectedHours`, `actualHours` and `updatedAt`; the task's `status`,
`employeeId`, `projectId`, `createdAt`, approver fields and rejection reason
are unchanged even though the body may carry `status` and `createdAt`
values, and every row of the stored list keeps those protected fields. -/
theorem C4_update_frame
    (store : List Task) (tid : String) (t t2 : Task) (body : UpdateBody)
    (s : Session) (now : Nat)
    (hfind : findTask store tid = some t)
    (hok : (PUT (some s) store tid body now).1 = ApiResponse.okTask t2) :
    (t2.status = t.status ∧ t2.employeeId = t.employeeId ∧
     t2.projectId = t.projectId ∧ t2.createdAt = t.createdAt ∧
     t2.approvedBy = t.approvedBy ∧ t2.approvedAt = t.approvedAt ∧
     t2.rejectionReason = t.rejectionReason) ∧
    (t2.taskName = jsTrim (body.taskName.getD "") ∧
     t2.expectedHours = body.expectedHours.getD t.expectedHours ∧
     t2.actualHours = body.actualHours.getD t.actualHours ∧
     t2.updatedAt = now) ∧
    (∀ u ∈ (PUT (some s) store tid body now).2, ∃ u0 ∈ store,
       u.status = u0.status ∧ u.employeeId = u0.employeeId ∧
       u.projectId = u0.projectId ∧ u.createdAt = u0.createdAt) := by
  obtain ⟨ht2, hmap⟩ := put_ok_characterization store tid t t2 body s now hfind hok
  subst ht2
  refine ⟨by simp [applyUpdate], by simp [applyUpdate], ?_⟩
  intro u hu
  rw [hmap] at hu
  rcases List.mem_map.mp hu with ⟨u0, hu0, rfl⟩
  refine ⟨u0, hu0, ?_⟩
  by_cases hc : (u0.id == tid) = true
  · simp [hc, applyUpdate]
  · simp [hc]

/-- Claim C4 witness: the administrator updates the approved fixture task
with a body that also carries `status` and `createdAt`; all protected fields
survive. -/
theorem C4_update_frame_witness :
    (findTask [exTaskApproved] "t1" = some exTaskApproved ∧
     (PUT (some exAdmin) [exTaskApproved] "t1" exGoodBody 5).1 =
       ApiResponse.okTask (applyUpdate exTaskApproved exGoodBody 5) ∧
     exGoodBody.status = some "rejected" ∧
     exGoodBody.createdAt = some "2024-01-01") ∧
    (((applyUpdate exTaskApproved exGoodBody 5).status = exTaskApproved.status ∧
      (applyUpdate exTaskApproved exGoodBody 5).employeeId = exTaskApproved.employeeId ∧
      (applyUpdate exTaskApproved exGoodBody 5).projectId = exTaskApproved.projectId ∧
      (applyUpdate exTaskApproved exGoodBody 5).createdAt = exTaskApproved.createdAt ∧
      (applyUpdate exTaskApproved exGoodBody 5).approvedBy = exTaskApproved.approvedBy ∧
      (applyUpdate exTaskApproved exGoodBody 5).approvedAt = exTaskApproved.approvedAt ∧
      (applyUpdate exTaskApproved exGoodBody 5).rejectionReason = exTaskApproved.rejectionReason) ∧
     ((applyUpdate exTaskApproved exGoodBody 5).taskName = jsTrim (exGoodBody.taskName.getD "") ∧
      (applyUpdate exTaskApproved exGoodBody 5).expectedHours =
        exGoodBody.expectedHours.getD exTaskApproved.expectedHours ∧
      (applyUpdate exTaskApproved exGoodBody 5).actualHours =
        exGoodBody.actualHours.getD exTaskApproved.actualHours ∧
      (applyUpdate exTaskApproved exGoodBody 5).updatedAt = 5) ∧
     (∀ u ∈ (PUT (some exAdmin) [exTaskApproved] "t1" exGoodBody 5).2, ∃ u0 ∈ [exTaskApproved],
        u.status = u0.status ∧ u.employeeId = u0.employeeId ∧
        u.projectId = u0.projectId ∧ u.createdAt = u0.createdAt)) :=
  ⟨⟨by decide, by decide, by decide, by decide⟩,
   C4_update_frame [exTaskApproved] "t1" exTaskApproved
     (applyUpdate exTaskApproved exGoodBody 5) exGoodBody exAdmin 5
     (by decide) (by decide)⟩

/-- Claim C5 (amended): Create rejects with the 400 required-fields error
exactly the JavaScript-falsy inputs — in particular hours equal to `0` are
rejected; with all fields truthy, an unresolved `projectId` yields 404
NotFound (not a 400 ValidationError); and no trim or non-negativity check is
made: the task is persisted with the hours exactly as supplied, negative
values included. -/
theorem C5_create_validation
    (s : Session) (projects : List Project) (store : List Task)
    (body : CreateBody) (newId : String) (now : Nat)
    (pid nm : String) (eh ah : Rat)
    (hpid : body.projectId = some pid) (hpid2 : pid ≠ "")
    (hnm : body.taskName = some nm) (hnm2 : nm ≠ "")
    (heh : body.expectedHours = some eh) (hah : body.actualHours = some ah) :
    (eh = 0 ∨ ah = 0 →
       POST (some s) projects store body newId now =
         (ApiResponse.validationError "All required fields must be provided", store)) ∧
    (eh ≠ 0 → ah ≠ 0 →
       projects.find? (fun p => p.id == pid) = none →
       POST (some s) projects store body newId now =
         (ApiResponse.notFound "Project not found", store)) ∧
    (eh ≠ 0 → ah ≠ 0 → ∀ p, projects.find? (fun p2 => p2.id == pid) = some p →
       ∃ t2, POST (some s) projects store body newId now =
           (ApiResponse.created t2, store ++ [t2]) ∧
         t2.taskName = nm ∧ t2.expectedHours = eh ∧ t2.actualHours = ah) := by
  refine ⟨?_, ?_, ?_⟩
  · rintro (h | h)
    · simp [POST, isFalsyStr, isFalsyNum, hpid, hnm, heh, hah, hpid2, hnm2, h]
    · simp [POST, isFalsyStr, isFalsyNum, hpid, hnm, heh, hah, hpid2, hnm2, h]
  · intro heh0 hah0 hfindp
    simp [POST, isFalsyStr, isFalsyNum, hpid, hnm, heh, hah, hpid2, hnm2,
      heh0, hah0, hfindp]
  · intro heh0 hah0 p hfindp
    refine ⟨{ id := newId, projectId := pid, employeeId := s.userId, taskName := nm,
              description := body.description, expectedHours := eh, actualHours := ah,
              status := .pending, approvedBy := none, approvedAt := none,
              rejectionReason := none, createdAt := now, updatedAt := now },
            ?_, rfl, rfl, rfl⟩
    simp [POST, isFalsyStr, isFalsyNum, hpid, hnm, heh, hah, hpid2, hnm2,
      heh0, hah0, hfindp]

/-- Claim C5 witness: the amended claim at the fixture create body with a
negative `expectedHours`, where the third branch persists the negative
value. -/
theorem C5_create_validation_witness :
    (exCreateNeg.projectId = some "p1" ∧ ("p1" : String) ≠ "" ∧
     exCreateNeg.taskName = some "t" ∧ ("t" : String) ≠ "" ∧
     exCreateNeg.expectedHours = some (-1) ∧ exCreateNeg.actualHours = some 2) ∧
    (((-1 : Rat) = 0 ∨ (2 : Rat) = 0 →
        POST (some exEmployee) [exProject] [] exCreateNeg "n1" 9 =
          (ApiResponse.validationError "All required fields must be provided", [])) ∧
     ((-1 : Rat) ≠ 0 → (2 : Rat) ≠ 0 →
        List.find? (fun p => p.id == "p1") [exProject] = none →
        POST (some exEmployee) [exProject] [] exCreateNeg "n1" 9 =
          (ApiResponse.notFound "Project not found", [])) ∧
     ((-1 : Rat) ≠ 0 → (2 : Rat) ≠ 0 → ∀ p, List.find? (fun p2 => p2.id == "p1") [exProject] = some p →
        ∃ t2, POST (some exEmployee) [exProject] [] exCreateNeg "n1" 9 =
            (ApiResponse.created t2, [] ++ [t2]) ∧
          t2.taskName = "t" ∧ t2.expectedHours = -1 ∧ t2.actualHours = 2)) :=
  ⟨by decide,
   C5_create_validation exEmployee [exProject] [] exCreateNeg "n1" 9 "p1" "t" (-1) 2
     rfl (by decide) rfl (by decide) rfl rfl⟩

/-- Claim C5 counterexample: a create body with `actualHours = 0` is
rejected with 400 although the claim accepts zero hours; a body with
`expectedHours = -1` is accepted (201) although the claim rejects negative
hours; and with an unresolvable `projectId` the failure is 404, not the
claimed ValidationError 400. -/
theorem C5_counterexample :
    (POST (some exEmployee) [exProject] [] exCreateZero "n1" 9).1 =
      ApiResponse.validationError "All required fields must be provided" ∧
    (POST (some exEmployee) [exProject] [] exCreateNeg "n1" 9).1.httpStatus = 201 ∧
    (POST (some exEmployee) [] []
        { exCreateNeg with expectedHours := some 1 } "n1" 9).1.httpStatus = 404 := by
  decide

/-- Claim C6 (amended): Update validates before persisting — it fails with
400 when `taskName` is empty after trimming, and with 400 when
`actualHours` is present but negative; `expectedHours` is not validated. -/
theorem C6_update_validation
    (s : Session) (store : List Task) (tid : String) (body : UpdateBody) (now : Nat) :
    (jsTrim (body.taskName.getD "") = "" →
       PUT (some s) store tid body now =
         (ApiResponse.validationError "Task name is required", store)) ∧
    (jsTrim (body.taskName.getD "") ≠ "" →
       ∀ h, body.actualHours = some h → h < 0 →
         PUT (some s) store tid body now =
           (ApiResponse.validationError "Actual hours must be a positive number", store)) := by
  constructor
  · intro h1
    simp [PUT, h1]
  · intro h1 h hsome hneg
    have hf : actualHoursOk body = false := by
      simp [actualHoursOk, hsome]
      exact hneg
    simp [PUT, h1, hf]

/-- Claim C6 witness: the amended claim at the pending fixture task with a
body carrying `actualHours = -1`. -/
theorem C6_update_validation_witness :
    (jsTrim (exNegActBody.taskName.getD "") ≠ "" ∧
     exNegActBody.actualHours = some (-1) ∧ (-1 : Rat) < 0) ∧
    ((jsTrim (exNegActBody.taskName.getD "") = "" →
        PUT (some exEmployee) [exTaskPending] "t2" exNegActBody 5 =
          (ApiResponse.validationError "Task name is required", [exTaskPending])) ∧
     (jsTrim (exNegActBody.taskName.getD "") ≠ "" →
        ∀ h, exNegActBody.actualHours = some h → h < 0 →
          PUT (some exEmployee) [exTaskPending] "t2" exNegActBody 5 =
            (ApiResponse.validationError "Actual hours must be a positive number", [exTaskPending]))) :=
  ⟨by decide,
   C6_update_validation exEmployee [exTaskPending] "t2" exNegActBody 5⟩

/-- Claim C6 counterexample: a body whose `expectedHours` is `-5` passes the
Update validation — the owning employee's PUT on the pending task succeeds
and the negative value is persisted, so `expectedHours` is not validated. -/
theorem C6_counterexample :
    exNegExpBody.expectedHours = some (-5) ∧
    PUT (some exEmployee) [exTaskPending] "t2" exNegExpBody 5 =
      (ApiResponse.okTask
         { exTaskPending with taskName := "a", expectedHours := -5, updatedAt := 5 },
       [{ exTaskPending with taskName := "a", expectedHours := -5, updatedAt := 5 }]) := by
  decide

/-- Claim C7: every successful Create persists the task with
`status = pending` and `employeeId` equal to the session user's id — whatever
`employeeId` or `status` the body carries — appends exactly that task to the
store, and returns it with HTTP 201. -/
theorem C7_create_pending_owned
    (s : Session) (projects : List Project) (store store2 : List Task)
    (body : CreateBody) (newId : String) (now : Nat) (t2 : Task)
    (h : POST (some s) projects store body newId now = (ApiResponse.created t2, store2)) :
    t2.status = TaskStatus.pending ∧ t2.employeeId = s.userId ∧
    store2 = store ++ [t2] ∧ (ApiResponse.created t2).httpStatus = 201 := by
  by_cases h1 : (isFalsyStr body.projectId || isFalsyStr body.taskName
      || isFalsyNum body.expectedHours || isFalsyNum body.actualHours) = true
  · simp [POST, h1] at h
  · cases hfindp : projects.find? (fun p => p.id == body.projectId.getD "") with
    | none => simp [POST, h1, hfindp] at h
    | some p =>
      simp [POST, h1, hfindp, Prod.mk.injEq, ApiResponse.created.injEq] at h
      obtain ⟨ht, hs⟩ := h
      subst ht
      subst hs
      exact ⟨rfl, rfl, rfl, rfl⟩

/-- Claim C7 witness: Create with a body that carries a foreign
`employeeId` and a non-pending `status` still persists a pending task owned
by the session user. -/
theorem C7_create_pending_owned_witness :
    (POST (some exEmployee) [exProject] [] exCreateNeg "n1" 9 =
       (ApiResponse.created exCreatedNeg, [exCreatedNeg]) ∧
     exCreateNeg.employeeId = some "e9" ∧ exCreateNeg.status = some "approved") ∧
    (exCreatedNeg.status = TaskStatus.pending ∧ exCreatedNeg.employeeId = exEmployee.userId ∧
     [exCreatedNeg] = [] ++ [exCreatedNeg] ∧
     (ApiResponse.created exCreatedNeg).httpStatus = 201) :=
  ⟨⟨by decide, rfl, rfl⟩,
   C7_create_pending_owned exEmployee [exProject] [] [exCreatedNeg] exCreateNeg "n1" 9
     exCreatedNeg (by decide)⟩

/-- Claim C8: the list endpoint returns exactly the stored tasks matching
the conjunction of the supplied filters — every row comes from a matching
stored task joined with the project and employee display fields, as a
permutation of the filtered store — ordered by creation time descending,
and with no filters supplied it returns all tasks. -/
theorem C8_list_filtered_sorted
    (s : Session) (users : List User) (projects : List Project)
    (store : List Task) (f : TaskFilters) (rows : List TaskRow)
    (hrun : GETtasks (some s) users projects store f = ListResult.ok rows) :
    List.Perm rows ((store.filter (matchesFilters f)).map (joinRow users projects)) ∧
    (∀ r ∈ rows, ∃ t ∈ store, matchesFilters f t = true ∧ r = joinRow users projects t) ∧
    rows.Pairwise (fun a b => b.createdAt ≤ a.createdAt) ∧
    (f.projectId = none → f.status = none → f.employeeId = none →
       List.Perm rows (store.map (joinRow users projects))) := by
  simp only [GETtasks, ListResult.ok.injEq] at hrun
  subst hrun
  have hperm :
      List.Perm
        ((sortByCreatedDesc (store.filter (matchesFilters f))).map (joinRow users projects))
        ((store.filter (matchesFilters f)).map (joinRow users projects)) :=
    (perm_sortByCreatedDesc (store.filter (matchesFilters f))).map (joinRow users projects)
  refine ⟨hperm, ?_, ?_, ?_⟩
  · intro r hr
    rcases List.mem_map.mp (hperm.mem_iff.mp hr) with ⟨t, ht, rfl⟩
    exact ⟨t, List.mem_of_mem_filter ht, List.of_mem_filter ht, rfl⟩
  · exact List.pairwise_map.mpr
      ((pairwise_sortByCreatedDesc (store.filter (matchesFilters f))).imp (fun hab => hab))
  · intro hp hst he
    have hfilter : store.filter (matchesFilters f) = store := by
      apply List.filter_eq_self.mpr
      intro a _
      simp [matchesFilters, hp, hst, he]
    exact hperm.trans (by rw [hfilter])

/-- Claim C8 witness: the no-filter list over the two fixture tasks returns
both joined rows, the later-created pending task first. -/
theorem C8_list_filtered_sorted_witness :
    GETtasks (some exEmployee) [exUser] [exProject]
        [exTaskApproved, exTaskPending] exNoFilters = ListResult.ok exRows ∧
    (List.Perm exRows
       (([exTaskApproved, exTaskPending].filter (matchesFilters exNoFilters)).map
         (joinRow [exUser] [exProject])) ∧
     (∀ r ∈ exRows, ∃ t ∈ [exTaskApproved, exTaskPending],
        matchesFilters exNoFilters t = true ∧ r = joinRow [exUser] [exProject] t) ∧
     exRows.Pairwise (fun a b => b.createdAt ≤ a.createdAt) ∧
     (exNoFilters.projectId = none → exNoFilters.status = none →
        exNoFilters.employeeId = none →
        List.Perm exRows ([exTaskApproved, exTaskPending].map (joinRow [exUser] [exProject])))) :=
  ⟨by decide,
   C8_list_filtered_sorted exEmployee [exUser] [exProject]
     [exTaskApproved, exTaskPending] exNoFilters exRows (by decide)⟩

/-- Claim C9: whenever Update or Delete fails with a validation (400),
not-found (404) or authorization (403) error, the stored task list after the
request is exactly what it was before — no store mutation happens on the
failing paths. -/
theorem C9_fail_fast_no_mutation
    (sess : Option Session) (store : List Task) (tid : String)
    (body : UpdateBody) (now : Nat) :
    ((PUT sess store tid body now).1.httpStatus = 400 ∨
     (PUT sess store tid body now).1.httpStatus = 404 ∨
     (PUT sess store tid body now).1.httpStatus = 403 →
       (PUT sess store tid body now).2 = store) ∧
    ((DELETE sess store tid).1.httpStatus = 400 ∨
     (DELETE sess store tid).1.httpStatus = 404 ∨
     (DELETE sess store tid).1.httpStatus = 403 →
       (DELETE sess store tid).2 = store) := by
  constructor
  · intro hs
    cases sess with
    | none => rfl
    | some s =>
      by_cases h1 : jsTrim (body.taskName.getD "") = ""
      · simp [PUT, h1]
      · by_cases h2 : actualHoursOk body = false
        · simp [PUT, h1, h2]
        · cases hfind : findTask store tid with
          | none => simp [PUT, h1, h2, hfind]
          | some t =>
            by_cases h3 : t.employeeId ≠ s.userId ∧ s.role ≠ "platform_admin"
            · simp [PUT, h1, h2, hfind, h3]
            · by_cases h4 : t.status ≠ TaskStatus.pending ∧ s.role ≠ "platform_admin"
              · by_cases hown : t.employeeId = s.userId
                · simp [PUT, h1, h2, hfind, h3, h4, hown]
                · exact absurd ⟨hown, h4.2⟩ h3
              · exfalso
                simp [PUT, h1, h2, hfind, h3, h4, ApiResponse.httpStatus] at hs
  · intro hs
    cases sess with
    | none => rfl
    | some s =>
      cases hfind : findTask store tid with
      | none => simp [DELETE, hfind]
      | some t =>
        by_cases h3 : t.employeeId ≠ s.userId ∧ s.role ≠ "platform_admin"
        · simp [DELETE, hfind, h3]
        · exfalso
          simp [DELETE, hfind, h3, ApiResponse.httpStatus] at hs

/-- Claim C9 witness: a foreign caller's Update and Delete of the fixture
task both fail with 403 and leave the one-task store unchanged. -/
theorem C9_fail_fast_no_mutation_witness :
    (PUT (some exOther) [exTaskApproved] "t1" exGoodBody 5).1.httpStatus = 403 ∧
    (PUT (some exOther) [exTaskApproved] "t1" exGoodBody 5).2 = [exTaskApproved] ∧
    (DELETE (some exOther) [exTaskApproved] "t1").2 = [exTaskApproved] :=
  ⟨by decide,
   (C9_fail_fast_no_mutation (some exOther) [exTaskApproved] "t1" exGoodBody 5).1
     (by decide),
   (C9_fail_fast_no_mutation (some exOther) [exTaskApproved] "t1" exGoodBody 5).2
     (by decide)⟩

/-- Claim C10: the project detail totals are the exact rational sums of the
tasks' expected and actual hours, and permuting the task list leaves both
totals unchanged. -/
theorem C10_totals_exact_perm_invariant
    (tasks tasks2 : List Task) (hperm : List.Perm tasks tasks2) :
    totalExpectedHours tasks = (tasks.map Task.expectedHours).sum ∧
    totalActualHours tasks = (tasks.map Task.actualHours).sum ∧
    totalExpectedHours tasks = totalExpectedHours tasks2 ∧
    totalActualHours tasks = totalActualHours tasks2 := by
  have h1 : ∀ l : List Task, totalExpectedHours l = (l.map Task.expectedHours).sum := by
    intro l
    simpa [totalExpectedHours] using foldl_add_eq_sum Task.expectedHours l 0
  have h2 : ∀ l : List Task, totalActualHours l = (l.map Task.actualHours).sum := by
    intro l
    simpa [totalActualHours] using foldl_add_eq_sum Task.actualHours l 0
  refine ⟨h1 tasks, h2 tasks, ?_, ?_⟩
  · rw [h1 tasks, h1 tasks2]
    exact (hperm.map Task.expectedHours).sum_eq
  · rw [h2 tasks, h2 tasks2]
    exact (hperm.map Task.actualHours).sum_eq

/-- Claim C10 witness: the totals of the two fixture tasks, in both
orders. -/
theorem C10_totals_exact_perm_invariant_witness :
    List.Perm [exTaskApproved, exTaskPending] [exTaskPending, exTaskApproved] ∧
    (totalExpectedHours [exTaskApproved, exTaskPending] =
       (List.map Task.expectedHours [exTaskApproved, exTaskPending]).sum ∧
     totalActualHours [exTaskApproved, exTaskPending] =
       (List.map Task.actualHours [exTaskApproved, exTaskPending]).sum ∧
     totalExpectedHours [exTaskApproved, exTaskPending] =
       totalExpectedHours [exTaskPending, exTaskApproved] ∧
     totalActualHours [exTaskApproved, exTaskPending] =
       totalActualHours [exTaskPending, exTaskApproved]) :=
  ⟨List.Perm.swap exTaskPending exTaskApproved [],
   C10_totals_exact_perm_invariant [exTaskApproved, exTaskPending]
     [exTaskPending, exTaskApproved] (List.Perm.swap exTaskPending exTaskApproved [])⟩

end TaskApi
